import Mathlib

/-!
Verification of the kalshi-mcp-server repository: a shallow embedding of the
stdio JSON-RPC MCP server (`src/kalshi_mcp/server.py`), the retrying HTTP
client and request signer (`src/kalshi_mcp/kalshi_client.py`), and the cursor
paginators (`src/kalshi_mcp/mcp/handlers.py`), together with theorems about
their behaviour.
-/

set_option maxRecDepth 4000

namespace KalshiMCP

/-- JSON values, modelling Python objects produced by `json.loads`: `None`,
booleans, numbers (ids and codes in this protocol are integers), strings,
lists, and dicts (association lists in insertion order; dicts from
`json.loads` never hold duplicate keys). -/
inductive Json where
  | null
  | bool (b : Bool)
  | num (n : Int)
  | str (s : String)
  | arr (xs : List Json)
  | obj (kvs : List (String × Json))
deriving Repr

/-- Dict lookup: `d.get(key)` returning `none` when the key is absent. -/
def lookupKey : List (String × Json) → String → Option Json
  | [], _ => none
  | (k, v) :: rest, key => if k = key then some v else lookupKey rest key

/-- Python `message.get(key)`: `None` (here `Json.null`) when absent or when
the receiver is not a dict. -/
def jget (m : Json) (key : String) : Json :=
  match m with
  | .obj kvs => (lookupKey kvs key).getD .null
  | _ => .null

/-- Python `key in message` membership test on a dict. -/
def hasKey (m : Json) (key : String) : Bool :=
  match m with
  | .obj kvs => (lookupKey kvs key).isSome
  | _ => false

mutual

/-- Serialization of a JSON value in the style of Python
`json.dumps(payload, separators=(",", ":"))` (string escaping elided to the
quote/backslash cases; no claim inspects the serialized text). -/
def Json.dumps : Json → String
  | .null => "null"
  | .bool true => "true"
  | .bool false => "false"
  | .num n => toString n
  | .str s => "\"" ++ s ++ "\""
  | .arr xs => "[" ++ dumpsList xs ++ "]"
  | .obj kvs => "\x7b" ++ dumpsObj kvs ++ "\x7d"

/-- Comma-separated serialization of a JSON array's elements. -/
def dumpsList : List Json → String
  | [] => ""
  | [x] => Json.dumps x
  | x :: y :: rest => Json.dumps x ++ "," ++ dumpsList (y :: rest)

/-- Comma-separated serialization of a JSON object's key/value pairs. -/
def dumpsObj : List (String × Json) → String
  | [] => ""
  | [(k, v)] => "\"" ++ k ++ "\":" ++ Json.dumps v
  | (k, v) :: p :: rest => "\"" ++ k ++ "\":" ++ Json.dumps v ++ "," ++ dumpsObj (p :: rest)

end

/-! Server embedding, from `src/kalshi_mcp/server.py`. -/

/-- `JSONRPC_VERSION` constant. -/
def JSONRPC_VERSION : String := "2.0"

/-- `DEFAULT_PROTOCOL_VERSION` constant. -/
def DEFAULT_PROTOCOL_VERSION : String := "2025-06-18"

/-- A tool handler (`ToolHandler` in `mcp/handlers.py`): receives the
`arguments` dict or `None` and either returns a structured payload or raises
(modelled as `Except` with the exception text). -/
def ToolHandler : Type := Option (List (String × Json)) → Except String Json

/-- The `ToolRegistry` class: a fixed name-to-handler map (`_handlers`) plus
the static tool-descriptor list returned by `list_tools` (the six schema
constants from `mcp/schema.py`; no claim inspects their content). -/
structure ToolRegistry where
  handlers : String → Option ToolHandler
  toolDescriptors : List Json

/-- `ToolRegistry.call_tool`: look up the handler by exact name, raising
`ValueError(f"Unknown tool: {tool_name}")` when absent, else invoke it. -/
def ToolRegistry.callTool (reg : ToolRegistry) (toolName : String)
    (arguments : Option (List (String × Json))) : Except String Json :=
  match reg.handlers toolName with
  | none => .error ("Unknown tool: " ++ toolName)
  | some h => h arguments

/-- The `ResourceRegistry` collaborator as the server sees it: the three
methods `_handle_request` calls on it (`read_resource` may raise
`ValueError`). -/
structure ResourceRegistry where
  listResources : List Json
  readResource : String → Except String Json
  listResourceTemplates : List Json

/-- The server's fixed collaborators: the tool registry and the optional
resource registry (`self._registry`, `self._resources`). -/
structure ServerEnv where
  registry : ToolRegistry
  resources : Option ResourceRegistry

/-- `StdioMCPServer.__init__` sets `self._initialized = False`. -/
def initialInitialized : Bool := false

/-- `StdioMCPServer._result_response`. -/
def resultResponse (requestId : Json) (result : Json) : Json :=
  .obj [("jsonrpc", .str JSONRPC_VERSION), ("id", requestId), ("result", result)]

/-- `StdioMCPServer._error_response` with no `data` argument. -/
def errorResponse (requestId : Json) (code : Int) (message : String) : Json :=
  .obj [("jsonrpc", .str JSONRPC_VERSION), ("id", requestId),
        ("error", .obj [("code", .num code), ("message", .str message)])]

/-- The not-initialized message used by `_call_tool` and the `resources/*`
gates. -/
def notInitializedMsg : String :=
  "Server is not initialized. Send initialize and notifications/initialized first."

/-- A `{"type": "text", "text": t}` content item. -/
def textContent (t : String) : Json :=
  .obj [("type", .str "text"), ("text", .str t)]

/-- The tool result `_call_tool` returns when the session is not initialized. -/
def uninitializedToolResult : Json :=
  .obj [("content", .arr [textContent notInitializedMsg]), ("isError", .bool true)]

/-- The tool result `_call_tool` returns when the handler raises: the error
text as content and `isError: true`. -/
def toolErrorResult (msg : String) : Json :=
  .obj [("content", .arr [textContent msg]), ("isError", .bool true)]

/-- The tool result `_call_tool` returns on success. -/
def toolSuccessResult (structuredContent : Json) : Json :=
  .obj [("content", .arr [textContent (Json.dumps structuredContent)]),
        ("structuredContent", structuredContent), ("isError", .bool false)]

/-- The envelope validation prefix of `StdioMCPServer._call_tool` (lines
220-230): `params` must be a dict, `name` a non-empty string, and
`arguments` absent (`None`) or a dict; violations raise `ValueError` with the
corresponding message. Returns the validated name and arguments. -/
def envelopeCheckToolsCall (params : Json) :
    Except String (String × Option (List (String × Json))) :=
  match params with
  | .obj _ =>
    match jget params "name" with
    | .str s =>
      if s = "" then .error "Missing tool name"
      else
        match jget params "arguments" with
        | .null => .ok (s, none)
        | .obj kvs => .ok (s, some kvs)
        | _ => .error "Tool arguments must be an object"
    | _ => .error "Missing tool name"
  | _ => .error "Invalid params for tools/call"

/-- `StdioMCPServer._call_tool`: envelope validation, then the uninitialized
tool-result, then dispatch through the registry with handler exceptions
converted to an `isError` tool result. `ValueError`s propagate as `.error`. -/
def callToolMethod (env : ServerEnv) (initialized : Bool) (params : Json) :
    Except String Json :=
  match envelopeCheckToolsCall params with
  | .error m => .error m
  | .ok (toolName, arguments) =>
    if initialized = false then .ok uninitializedToolResult
    else
      match env.registry.callTool toolName arguments with
      | .error m => .ok (toolErrorResult m)
      | .ok structuredContent => .ok (toolSuccessResult structuredContent)

/-- `StdioMCPServer._initialize`: `params` must be a dict; the protocol
version defaults when absent, non-string or empty; the capabilities include
`resources` exactly when a resource registry is wired in. -/
def initializeMethod (env : ServerEnv) (params : Json) : Except String Json :=
  match params with
  | .obj _ =>
    let protocolVersion :=
      match jget params "protocolVersion" with
      | .str s => if s = "" then DEFAULT_PROTOCOL_VERSION else s
      | _ => DEFAULT_PROTOCOL_VERSION
    let capabilities :=
      [("tools", Json.obj [("listChanged", .bool false)])] ++
        (match env.resources with
         | some _ => [("resources", Json.obj [("subscribe", .bool false),
                                              ("listChanged", .bool false)])]
         | none => [])
    .ok (.obj [("protocolVersion", .str protocolVersion),
               ("capabilities", .obj capabilities),
               ("serverInfo", .obj [("name", .str "kalshi-mcp-server"),
                                    ("version", .str "0.1.0")])])
  | _ => .error "Invalid params for initialize"

/-- The body of the `try` block of `StdioMCPServer._handle_request` (lines
139-196): either a complete response (`.ok`) or a raised `ValueError`
(`.error`, turned into a `-32602` error by the caller; the only exceptions
the embedded operations raise are `ValueError`s, so the `-32603` guardrail
branch is unreachable here). -/
def handleRequestTry (env : ServerEnv) (initialized : Bool) (requestId : Json)
    (method : String) (params : Json) : Except String Json :=
  if method = "initialize" then
    (initializeMethod env params).map (resultResponse requestId)
  else if method = "ping" then
    .ok (resultResponse requestId (.obj []))
  else if method = "tools/list" then
    .ok (resultResponse requestId (.obj [("tools", .arr env.registry.toolDescriptors)]))
  else if method = "tools/call" then
    (callToolMethod env initialized params).map (resultResponse requestId)
  else if method = "resources/list" then
    match env.resources with
    | none => .ok (errorResponse requestId (-32601) "Method not found")
    | some res =>
      if initialized = false then
        .ok (errorResponse requestId (-32603) notInitializedMsg)
      else
        .ok (resultResponse requestId (.obj [("resources", .arr res.listResources)]))
  else if method = "resources/read" then
    match env.resources with
    | none => .ok (errorResponse requestId (-32601) "Method not found")
    | some res =>
      if initialized = false then
        .ok (errorResponse requestId (-32603) notInitializedMsg)
      else
        match params with
        | .obj _ =>
          match jget params "uri" with
          | .str uri =>
            if uri = "" then .error "Missing resource uri"
            else (res.readResource uri).map (resultResponse requestId)
          | _ => .error "Missing resource uri"
        | _ => .error "Invalid params for resources/read"
  else if method = "resources/templates/list" then
    match env.resources with
    | none => .ok (errorResponse requestId (-32601) "Method not found")
    | some res =>
      if initialized = false then
        .ok (errorResponse requestId (-32603) notInitializedMsg)
      else
        .ok (resultResponse requestId
              (.obj [("resourceTemplates", .arr res.listResourceTemplates)]))
  else
    .ok (errorResponse requestId (-32601) "Method not found")

/-- `StdioMCPServer._handle_request`: a `None` id is rejected up front;
otherwise the `try` body runs with `ValueError`s converted to `-32602`
errors. -/
def handleRequest (env : ServerEnv) (initialized : Bool) (requestId : Json)
    (method : String) (params : Json) : Json :=
  match requestId with
  | .null => errorResponse .null (-32600) "Invalid Request"
  | _ =>
    match handleRequestTry env initialized requestId method params with
    | .ok response => response
    | .error m => errorResponse requestId (-32602) m

/-- `StdioMCPServer._handle_notification`: only `notifications/initialized`
changes the flag; everything else is ignored. -/
def handleNotificationFlag (initialized : Bool) (method : String) : Bool :=
  if method = "notifications/initialized" then true else initialized

/-- The `message.get("jsonrpc") != JSONRPC_VERSION` guard. -/
def isJsonrpc2 (m : Json) : Bool :=
  match jget m "jsonrpc" with
  | .str s => s = JSONRPC_VERSION
  | _ => false

/-- `StdioMCPServer._handle_one_message`: returns the new `initialized` flag
together with the optional response (`None` for notifications and for ignored
client responses). -/
def handleOneMessage (env : ServerEnv) (initialized : Bool) (message : Json) :
    Bool × Option Json :=
  match message with
  | .obj _ =>
    if isJsonrpc2 message = false then
      (initialized, some (errorResponse (jget message "id") (-32600) "Invalid Request"))
    else
      match jget message "method" with
      | .str method =>
        if hasKey message "id" then
          (initialized,
           some (handleRequest env initialized (jget message "id") method
                  (jget message "params")))
        else
          (handleNotificationFlag initialized method, none)
      | _ =>
        if hasKey message "id" && (hasKey message "result" || hasKey message "error") then
          (initialized, none)
        else
          (initialized,
           some (errorResponse (jget message "id") (-32600) "Invalid Request"))
  | _ => (initialized, some (errorResponse .null (-32600) "Invalid Request"))

/-- The batch loop of `_handle_incoming`: process each element through the
single-message path in order (the `initialized` flag threads through),
collecting the non-null responses. -/
def processBatch (env : ServerEnv) : Bool → List Json → Bool × List Json
  | initialized, [] => (initialized, [])
  | initialized, m :: ms =>
    let step := handleOneMessage env initialized m
    let rest := processBatch env step.1 ms
    (rest.1,
     match step.2 with
     | some response => response :: rest.2
     | none => rest.2)

/-- `StdioMCPServer._handle_incoming`: returns the new flag and the payload
written to stdout, if any (a lone object for a single message, an array for a
non-degenerate batch). -/
def handleIncoming (env : ServerEnv) (initialized : Bool) (message : Json) :
    Bool × Option Json :=
  match message with
  | .arr [] => (initialized, some (errorResponse .null (-32600) "Invalid Request"))
  | .arr (m :: ms) =>
    let batch := processBatch env initialized (m :: ms)
    match batch.2 with
    | [] => (batch.1, none)
    | r :: rs => (batch.1, some (.arr (r :: rs)))
  | _ =>
    let step := handleOneMessage env initialized message
    (step.1, step.2)

/-! Retrying HTTP transport, from `KalshiClient._get_json`
(`src/kalshi_mcp/kalshi_client.py`, lines 1166-1237). Real-valued waits are
modelled over `ℚ`; the `random.uniform(0, 0.25)` jitter and the per-attempt
network outcomes are oracle inputs. -/

/-- Outcome of one `urlopen` call: success with a body, an `HTTPError` with a
status code and the parsed numeric `Retry-After` header (absent, empty or
unparsable header values behave identically to no header, so they are
modelled as `none`), or a `URLError` with a reason. -/
inductive HttpOutcome where
  | success (body : String)
  | httpError (code : Nat) (retryAfter : Option ℚ)
  | urlError (reason : String)

/-- The retriable status set `(429, 500, 502, 503, 504)`. -/
def retriableCodes : List Nat := [429, 500, 502, 503, 504]

/-- `backoff = 0.25 * (2 ** (attempts - 1)) + random.uniform(0, 0.25)` with
the jitter draw passed in. -/
def computedBackoff (attempts : Nat) (jitter : ℚ) : ℚ :=
  1/4 * 2 ^ (attempts - 1) + jitter

/-- The wait before an HTTP-status retry: the computed backoff, raised to the
`Retry-After` value when one parsed, then capped at 5 seconds. -/
def httpWait (attempts : Nat) (jitter : ℚ) (retryAfter : Option ℚ) : ℚ :=
  let backoff := computedBackoff attempts jitter
  let backoff :=
    match retryAfter with
    | some r => max backoff r
    | none => backoff
  min backoff 5

/-- The wait before a connection-level retry, capped at 2 seconds. -/
def connWait (attempts : Nat) (jitter : ℚ) : ℚ :=
  min (computedBackoff attempts jitter) 2

/-- `MAX_ATTEMPTS`: the loop's `max_attempts = 4`. -/
def maxAttempts : Nat := 4

/-- The result of a `_get_json` run: the body or the raised
`KalshiClientError` message, the number of `urlopen` calls issued, and the
chronological list of sleeps performed. -/
structure GetJsonRun where
  result : Except String String
  calls : Nat
  sleeps : List ℚ
deriving Repr

/-- The `while True` retry loop of `_get_json`. `outcome n` is the result of
the `(n+1)`-th `urlopen` call and `jitter a` the uniform draw taken while
handling the `a`-th failure. `fuel` bounds the recursion; run with
`fuel = maxAttempts - 1 - attempts` it never runs out, because a retry
requires `attempts + 1 < maxAttempts`. -/
def getJsonLoop (url : String) (outcome : Nat → HttpOutcome) (jitter : Nat → ℚ) :
    Nat → Nat → Nat → List ℚ → GetJsonRun
  | fuel, attempts, calls, sleeps =>
    match outcome calls with
    | .success body => ⟨.ok body, calls + 1, sleeps⟩
    | .httpError code retryAfter =>
      if code ∈ retriableCodes ∧ attempts + 1 < maxAttempts then
        match fuel with
        | 0 => ⟨.error ("Kalshi API HTTP " ++ toString code ++ " for " ++ url),
                calls + 1, sleeps⟩
        | f + 1 =>
          getJsonLoop url outcome jitter f (attempts + 1) (calls + 1)
            (sleeps ++ [httpWait (attempts + 1) (jitter (attempts + 1)) retryAfter])
      else
        ⟨.error ("Kalshi API HTTP " ++ toString code ++ " for " ++ url),
         calls + 1, sleeps⟩
    | .urlError reason =>
      if attempts + 1 < maxAttempts then
        match fuel with
        | 0 => ⟨.error ("Kalshi API request failed for " ++ url ++ ": " ++ reason),
                calls + 1, sleeps⟩
        | f + 1 =>
          getJsonLoop url outcome jitter f (attempts + 1) (calls + 1)
            (sleeps ++ [connWait (attempts + 1) (jitter (attempts + 1))])
      else
        ⟨.error ("Kalshi API request failed for " ++ url ++ ": " ++ reason),
         calls + 1, sleeps⟩

/-- `_get_json`'s retry phase, started with `attempts = 0`. -/
def getJson (url : String) (outcome : Nat → HttpOutcome) (jitter : Nat → ℚ) :
    GetJsonRun :=
  getJsonLoop url outcome jitter (maxAttempts - 1) 0 0 []

/-! Request signer, from `KalshiClient._path_for_signing`,
`_require_auth_headers` and `_sign_message`
(`src/kalshi_mcp/kalshi_client.py`, lines 1096-1164). String manipulation is
carried out over `List Char`. -/

/-- Python `s.split("?", 1)[0]`: the prefix before the first `?`. -/
def beforeQuery : List Char → List Char
  | [] => []
  | c :: cs => if c = '?' then [] else c :: beforeQuery cs

/-- Python `s.rstrip("/")`. -/
def rstripSlash (s : List Char) : List Char :=
  (s.reverse.dropWhile (· = '/')).reverse

/-- Modelled from python stdlib: `urllib.parse.urlparse(url).path` for a URL
of shape `scheme://netloc/path...`: everything from the first `/` after the
authority up to a `?` or `#`, and `""` when the URL has no path component. -/
def urlparsePath (url : List Char) : List Char :=
  match splitOnSchemeSep url with
  | some rest =>
    (rest.dropWhile (fun c => c ≠ '/' ∧ c ≠ '?' ∧ c ≠ '#')).takeWhile
      (fun c => c ≠ '?' ∧ c ≠ '#')
  | none => url.takeWhile (fun c => c ≠ '?' ∧ c ≠ '#')
where
  /-- The remainder of the URL after the first `"://"`. -/
  splitOnSchemeSep : List Char → Option (List Char)
    | ':' :: '/' :: '/' :: rest => some rest
    | _ :: rest => splitOnSchemeSep rest
    | [] => none

/-- `KalshiClient._path_for_signing`: ensure a leading slash, drop any query
string, and prefix the base URL's path (with trailing slashes stripped) when
the base URL has one. -/
def pathForSigning (baseUrl : List Char) (path : List Char) : List Char :=
  let requestPath := if path.head? = some '/' then path else '/' :: path
  let requestPath := beforeQuery requestPath
  let basePath := rstripSlash (urlparsePath baseUrl)
  if basePath ≠ [] then basePath ++ requestPath else requestPath

/-- The signing input built by `_require_auth_headers`:
`f"{timestamp_ms}{method.upper()}{self._path_for_signing(path)}"`. -/
def signingInput (timestampMs : List Char) (method : List Char)
    (baseUrl : List Char) (path : List Char) : List Char :=
  timestampMs ++ method.map Char.toUpper ++ pathForSigning baseUrl path

/-- Hash algorithms that can appear in the signing configuration. -/
inductive HashAlg where
  | sha256
  | sha1
deriving DecidableEq, Repr

/-- The salt-length choice passed to the PSS padding constructor. -/
inductive SaltLengthSpec where
  | digestLength
  | maxLength
  | explicitLength (n : Nat)
deriving DecidableEq, Repr

/-- An asymmetric padding scheme as configured at the `sign` call. -/
inductive PaddingScheme where
  | pss (mgf1Hash : HashAlg) (saltLength : SaltLengthSpec)
  | pkcs1v15
deriving DecidableEq, Repr

/-- The parameters of a private-key `sign` invocation plus the output
encoding. -/
structure SignConfig where
  padding : PaddingScheme
  digest : HashAlg
  base64Encoded : Bool
deriving DecidableEq, Repr

/-- The configuration of `KalshiClient._sign_message`: PSS padding with
MGF1 over SHA-256 and `salt_length=padding.PSS.DIGEST_LENGTH`, a SHA-256
digest, and base64 output. -/
def kalshiSignConfig : SignConfig :=
  { padding := .pss .sha256 .digestLength
    digest := .sha256
    base64Encoded := true }

/-! Cursor paginators, from `_page_open_markets_for_series` and
`_page_series_tickers_for_category` (`src/kalshi_mcp/mcp/handlers.py`, lines
448-534). The page fetcher (the `metadata_service` call with everything but
the cursor fixed) is a parameter; market payloads are opaque. -/

/-- One page from a paged list endpoint: the items plus the next cursor. -/
structure Page (α : Type) where
  items : List α
  cursor : Option String

/-- A result of a pagination run together with the number of fetches the run
issued: on success, the accumulated items and the `pages` counter. -/
structure PageRun (α : Type) where
  result : Except String (List α × Nat)
  fetches : Nat

/-- The `while True` loop of `_page_open_markets_for_series`: check the page
cap before fetching, fetch, extend the accumulator, stop on a null cursor,
abort on a repeated cursor. Exceptions (`ValueError`s and fetcher failures)
are `.error`. Recursion terminates because `pages` increases towards
`maxPages`. -/
def pageMarketsLoop {α : Type} (fetch : Option String → Except String (Page α))
    (maxPages : Nat) (cursor : Option String) (seen : List String) (pages : Nat)
    (acc : List α) : PageRun α :=
  if maxPages ≤ pages then
    ⟨.error "Exceeded max_pages while paging /markets; reduce scope or increase max_pages.", 0⟩
  else
    match fetch cursor with
    | .error e => ⟨.error e, 1⟩
    | .ok page =>
      let acc2 := acc ++ page.items
      let pages2 := pages + 1
      match page.cursor with
      | none => ⟨.ok (acc2, pages2), 1⟩
      | some next =>
        if next ∈ seen then
          ⟨.error "Kalshi /markets cursor repeated; aborting pagination.", 1⟩
        else
          let rest := pageMarketsLoop fetch maxPages (some next) (next :: seen) pages2 acc2
          ⟨rest.result, rest.fetches + 1⟩
termination_by maxPages - pages
decreasing_by omega

/-- `_page_open_markets_for_series`: run the loop from a null cursor, an
empty seen set, zero pages and an empty accumulator. -/
def pageOpenMarketsForSeries {α : Type}
    (fetch : Option String → Except String (Page α)) (maxPages : Nat) :
    PageRun α :=
  pageMarketsLoop fetch maxPages none [] 0 []

/-- The per-page dedup of `_page_series_tickers_for_category`: append each
ticker not already seen, preserving first-seen order. Returns the updated
seen set and ticker accumulator. -/
def dedupTickers : List String → List String → List String → List String × List String
  | seen, acc, [] => (seen, acc)
  | seen, acc, t :: ts =>
    if t ∈ seen then dedupTickers seen acc ts
    else dedupTickers (t :: seen) (acc ++ [t]) ts

/-- The `while True` loop of `_page_series_tickers_for_category`: identical
control flow to the markets loop, with ticker dedup and the `/series` error
messages. -/
def pageSeriesLoop (fetch : Option String → Except String (Page String))
    (maxPages : Nat) (cursor : Option String) (seenCursors : List String)
    (seenTickers : List String) (pages : Nat) (acc : List String) :
    PageRun String :=
  if maxPages ≤ pages then
    ⟨.error "Exceeded max_pages while paging /series; reduce scope with tags or increase max_pages.", 0⟩
  else
    match fetch cursor with
    | .error e => ⟨.error e, 1⟩
    | .ok page =>
      let dedup := dedupTickers seenTickers acc page.items
      let pages2 := pages + 1
      match page.cursor with
      | none => ⟨.ok (dedup.2, pages2), 1⟩
      | some next =>
        if next ∈ seenCursors then
          ⟨.error "Kalshi /series cursor repeated; aborting pagination.", 1⟩
        else
          let rest := pageSeriesLoop fetch maxPages (some next) (next :: seenCursors)
            dedup.1 pages2 dedup.2
          ⟨rest.result, rest.fetches + 1⟩
termination_by maxPages - pages
decreasing_by omega

/-- `_page_series_tickers_for_category`: run the loop from empty state. -/
def pageSeriesTickersForCategory
    (fetch : Option String → Except String (Page String)) (maxPages : Nat) :
    PageRun String :=
  pageSeriesLoop fetch maxPages none [] [] 0 []

/-! Derived predicates and concrete instances used by the theorems below. -/

/-- The three resource methods gated on initialization in `_handle_request`. -/
def resourceMethods : List String :=
  ["resources/list", "resources/read", "resources/templates/list"]

/-- A message `_handle_one_message` routes to `_handle_notification` with the
method `notifications/initialized`: a dict with `jsonrpc == "2.0"`, no `id`
key, and that exact method string. -/
def isInitializedNotification (m : Json) : Bool :=
  match m with
  | .obj _ =>
    isJsonrpc2 m && !hasKey m "id" &&
      (match jget m "method" with
       | .str s => s = "notifications/initialized"
       | _ => false)
  | _ => false

/-- A message `_handle_one_message` treats as a notification: a dict with
`jsonrpc == "2.0"`, a string `method`, and no `id` key. -/
def isNotificationMsg (m : Json) : Bool :=
  match m with
  | .obj _ =>
    isJsonrpc2 m && !hasKey m "id" &&
      (match jget m "method" with
       | .str _ => true
       | _ => false)
  | _ => false

/-- A concrete registry for witnesses: an `echo` tool that succeeds and a
`boom` tool whose handler raises. -/
def sampleRegistry : ToolRegistry where
  handlers := fun n =>
    if n = "boom" then some (fun _ => .error "boom failed")
    else if n = "echo" then some (fun _ => .ok (.obj [("ok", .bool true)]))
    else none
  toolDescriptors := []

/-- A concrete resource registry for witnesses. -/
def sampleResources : ResourceRegistry where
  listResources := []
  readResource := fun _ => .ok .null
  listResourceTemplates := []

/-- A concrete server environment with resources wired in. -/
def sampleEnv : ServerEnv := ⟨sampleRegistry, some sampleResources⟩

/-- A client response message (id plus result), which the server ignores. -/
def sampleClientResponse : Json :=
  .obj [("jsonrpc", .str "2.0"), ("id", .num 1), ("result", .obj [])]

/-! Helper lemmas about the server. -/

/-- A notification-shaped message produces no response. -/
theorem handleOneMessage_snd_of_notification (env : ServerEnv) (ini : Bool)
    (m : Json) (h : isNotificationMsg m = true) :
    (handleOneMessage env ini m).2 = none := by
  cases m with
  | obj kvs =>
    simp only [isNotificationMsg, Bool.and_eq_true, Bool.not_eq_true'] at h
    obtain ⟨⟨h1, h2⟩, h3⟩ := h
    simp only [handleOneMessage, h1, h2]
    cases hm : jget (Json.obj kvs) "method" with
    | str s => simp
    | _ => rw [hm] at h3 ; simp_all
  | _ => simp [isNotificationMsg] at h

/-- The flag returned by `_handle_one_message` is the old flag, or `true`
exactly when the message is the `notifications/initialized` notification. -/
theorem handleOneMessage_fst (env : ServerEnv) (ini : Bool) (m : Json) :
    (handleOneMessage env ini m).1 = (ini || isInitializedNotification m) := by
  cases m with
  | obj kvs =>
    simp only [handleOneMessage, isInitializedNotification]
    cases h1 : isJsonrpc2 (Json.obj kvs) with
    | false => simp
    | true =>
      simp only [Bool.true_and]
      cases hm : jget (Json.obj kvs) "method" with
      | str s =>
        cases h2 : hasKey (Json.obj kvs) "id" with
        | true => simp
        | false =>
          simp only [Bool.not_false, Bool.true_and, handleNotificationFlag]
          by_cases hs : s = "notifications/initialized" <;> simp [hs]
      | _ =>
        cases h2 : hasKey (Json.obj kvs) "id" &&
            (hasKey (Json.obj kvs) "result" || hasKey (Json.obj kvs) "error") <;>
          simp_all
  | _ => simp [handleOneMessage, isInitializedNotification]

/-- C2: the `initialized` flag starts `false`; it becomes `true` under
`_handle_one_message` exactly when it already was or the message is the
`notifications/initialized` notification (so a successful `initialize`
request leaves it `false` and nothing resets it); and, while it is `false`,
every `resources/list`, `resources/read` and `resources/templates/list`
request is answered with a `-32603` JSON-RPC error that does not depend on
the resource registry, i.e. before the resource router is invoked. -/
theorem C2_initialization_gating :
    initialInitialized = false
    ∧ (∀ (env : ServerEnv) (ini : Bool) (m : Json),
        (handleOneMessage env ini m).1 = (ini || isInitializedNotification m))
    ∧ (∀ (reg : ToolRegistry) (res : ResourceRegistry) (requestId params : Json)
        (method : String), method ∈ resourceMethods → requestId ≠ Json.null →
        handleRequest ⟨reg, some res⟩ false requestId method params
          = errorResponse requestId (-32603) notInitializedMsg) := by
  refine ⟨rfl, handleOneMessage_fst, ?_⟩
  intro reg res requestId params method hmeth hid
  have hcases : method = "resources/list" ∨ method = "resources/read" ∨
      method = "resources/templates/list" := by
    simpa [resourceMethods] using hmeth
  cases requestId with
  | null => exact absurd rfl hid
  | _ =>
    rcases hcases with rfl | rfl | rfl <;>
      simp [handleRequest, handleRequestTry]

/-- Witness for C2 at a concrete input: a `resources/read` request with id 1
against the sample environment, processed while uninitialized, yields the
`-32603` error. -/
theorem C2_initialization_gating_witness :
    handleRequest ⟨sampleRegistry, some sampleResources⟩ false (.num 1)
        "resources/read" .null
      = errorResponse (.num 1) (-32603) notInitializedMsg :=
  C2_initialization_gating.2.2 sampleRegistry sampleResources (.num 1) .null
    "resources/read" (by simp [resourceMethods]) (by simp)

/-- C1: for a `tools/call` request whose params envelope validates, an
uninitialized session yields a successful JSON-RPC result carrying the
not-initialized tool result (`isError: true`), and a handler that raises
yields a successful JSON-RPC result carrying the exception text as content
with `isError: true`; neither case is a protocol error object. -/
theorem C1_tools_call_isError :
    ∀ (env : ServerEnv) (requestId params : Json) (toolName : String)
      (arguments : Option (List (String × Json))),
      requestId ≠ Json.null →
      envelopeCheckToolsCall params = .ok (toolName, arguments) →
      (handleRequest env false requestId "tools/call" params
          = resultResponse requestId uninitializedToolResult
        ∧ ∀ msg : String,
            env.registry.callTool toolName arguments = .error msg →
            handleRequest env true requestId "tools/call" params
              = resultResponse requestId (toolErrorResult msg)) := by
  intro env requestId params toolName arguments hid henv
  cases requestId with
  | null => exact absurd rfl hid
  | _ =>
    constructor
    · simp [handleRequest, handleRequestTry, callToolMethod, henv, Except.map]
    · intro msg hmsg
      simp [handleRequest, handleRequestTry, callToolMethod, henv, hmsg, Except.map]

/-- Witness for C1: calling the raising `boom` tool of the sample registry
with id 7, uninitialized and initialized. -/
theorem C1_tools_call_isError_witness :
    handleRequest sampleEnv false (.num 7) "tools/call"
        (.obj [("name", .str "boom")])
      = resultResponse (.num 7) uninitializedToolResult
    ∧ handleRequest sampleEnv true (.num 7) "tools/call"
        (.obj [("name", .str "boom")])
      = resultResponse (.num 7) (toolErrorResult "boom failed") := by
  have h := C1_tools_call_isError sampleEnv (.num 7)
    (.obj [("name", .str "boom")]) "boom" none (by simp) rfl
  exact ⟨h.1, h.2 "boom failed" rfl⟩

/-- C10: a `tools/call` request whose params envelope fails validation is
answered with a protocol-level `-32602` invalid-params error carrying the
validation message, whatever the `initialized` flag — in particular also
while uninitialized, so the uninitialized `isError` tool result is only ever
produced after envelope validation passes. -/
theorem C10_invalid_envelope_protocol_error :
    ∀ (env : ServerEnv) (ini : Bool) (requestId params : Json) (m : String),
      requestId ≠ Json.null →
      envelopeCheckToolsCall params = .error m →
      handleRequest env ini requestId "tools/call" params
        = errorResponse requestId (-32602) m := by
  intro env ini requestId params m hid henv
  cases requestId with
  | null => exact absurd rfl hid
  | _ => simp [handleRequest, handleRequestTry, callToolMethod, henv, Except.map]

/-- Witness for C10: non-object params with id 2 on an uninitialized session
yield the `-32602` invalid-params error. -/
theorem C10_invalid_envelope_protocol_error_witness :
    handleRequest sampleEnv false (.num 2) "tools/call" (.num 3)
      = errorResponse (.num 2) (-32602) "Invalid params for tools/call" :=
  C10_invalid_envelope_protocol_error sampleEnv false (.num 2) (.num 3)
    "Invalid params for tools/call" (by simp) rfl

/-- A notification message used in witnesses. -/
def sampleNotification : Json :=
  .obj [("jsonrpc", .str "2.0"), ("method", .str "notifications/initialized")]

/-- A ping request used in witnesses. -/
def samplePing : Json :=
  .obj [("jsonrpc", .str "2.0"), ("id", .num 1), ("method", .str "ping")]

/-- A batch consisting only of messages producing no response yields an
empty response list. -/
theorem processBatch_snd_nil_of_notifications (env : ServerEnv) :
    ∀ (items : List Json) (ini : Bool),
      (∀ m ∈ items, isNotificationMsg m = true) →
      (processBatch env ini items).2 = [] := by
  intro items
  induction items with
  | nil => intro ini _; rfl
  | cons m ms ih =>
    intro ini h
    have hm := handleOneMessage_snd_of_notification env ini m (h m (by simp))
    simp only [processBatch, hm]
    exact ih _ (fun x hx => h x (by simp [hx]))

/-- Counterexample to C3: a non-empty batch consisting of a single client
response (not a notification) falls in the claim's "otherwise" case, yet the
server writes nothing instead of a single (empty) response array. -/
theorem C3_counterexample :
    (handleIncoming sampleEnv false (.arr [sampleClientResponse])).2 = none
    ∧ [sampleClientResponse] ≠ ([] : List Json)
    ∧ isNotificationMsg sampleClientResponse = false :=
  ⟨rfl, by simp, rfl⟩

/-- C3 (amended): an empty array yields exactly one invalid-request error
response; a non-empty array all of whose elements yield no response (in
particular a batch of notifications, but also ignored client responses)
yields no output; and when the per-element processing produces at least one
non-null response, the output is a single array of exactly those responses in
order. -/
theorem C3_batch_dispatch :
    (∀ (env : ServerEnv) (ini : Bool),
      handleIncoming env ini (.arr [])
        = (ini, some (errorResponse .null (-32600) "Invalid Request")))
    ∧ (∀ (env : ServerEnv) (ini : Bool) (items : List Json), items ≠ [] →
        (∀ m ∈ items, isNotificationMsg m = true) →
        (handleIncoming env ini (.arr items)).2 = none)
    ∧ (∀ (env : ServerEnv) (ini : Bool) (items : List Json) (r : Json)
        (rs : List Json),
        (processBatch env ini items).2 = r :: rs →
        (handleIncoming env ini (.arr items)).2 = some (.arr (r :: rs)))
    ∧ (∀ (env : ServerEnv) (ini : Bool) (items : List Json), items ≠ [] →
        (processBatch env ini items).2 = [] →
        (handleIncoming env ini (.arr items)).2 = none) := by
  refine ⟨fun env ini => rfl, ?_, ?_, ?_⟩
  · intro env ini items hne h
    match items with
    | m :: ms =>
      have := processBatch_snd_nil_of_notifications env (m :: ms) ini h
      simp [handleIncoming, this]
  · intro env ini items r rs h
    match items with
    | [] => simp [processBatch] at h
    | m :: ms => simp [handleIncoming, h]
  · intro env ini items hne h
    match items with
    | m :: ms => simp [handleIncoming, h]

/-- Witness for C3 at concrete inputs: a singleton notification batch writes
nothing, and a singleton ping batch writes the one-element response array. -/
theorem C3_batch_dispatch_witness :
    (handleIncoming sampleEnv false (.arr [sampleNotification])).2 = none
    ∧ (handleIncoming sampleEnv false (.arr [samplePing])).2
        = some (.arr [resultResponse (.num 1) (.obj [])]) := by
  constructor
  · exact C3_batch_dispatch.2.1 sampleEnv false [sampleNotification] (by simp)
      (by intro m hm; rcases List.mem_singleton.mp hm with rfl; rfl)
  · exact C3_batch_dispatch.2.2.1 sampleEnv false [samplePing]
      (resultResponse (.num 1) (.obj [])) [] rfl

/-! Pagination lemmas and claims C8, C9. -/

/-- Fetch-count bound for the markets loop: a run started at `pages` issues
at most `maxPages - pages` fetches. -/
theorem pageMarketsLoop_fetches_le {α : Type}
    (fetch : Option String → Except String (Page α)) (maxPages : Nat) :
    ∀ (k : Nat) (cursor : Option String) (seen : List String) (pages : Nat)
      (acc : List α), maxPages - pages ≤ k →
      (pageMarketsLoop fetch maxPages cursor seen pages acc).fetches
        ≤ maxPages - pages := by
  intro k
  induction k with
  | zero =>
    intro cursor seen pages acc hk
    have hcap : maxPages ≤ pages := by omega
    rw [pageMarketsLoop]
    simp [hcap]
  | succ n ih =>
    intro cursor seen pages acc hk
    rw [pageMarketsLoop]
    by_cases hcap : maxPages ≤ pages
    · simp [hcap]
    · simp only [if_neg hcap]
      cases hf : fetch cursor with
      | error e => simp; omega
      | ok page =>
        cases hc : page.cursor with
        | none => simp [hc]; omega
        | some next =>
          by_cases hseen : next ∈ seen
          · simp [hc, hseen]; omega
          · simp only [hc, if_pos, if_neg hseen]
            have := ih (some next) (next :: seen) (pages + 1)
              (acc ++ page.items) (by omega)
            omega

/-- Fetch-count bound for the series loop. -/
theorem pageSeriesLoop_fetches_le
    (fetch : Option String → Except String (Page String)) (maxPages : Nat) :
    ∀ (k : Nat) (cursor : Option String) (seenCursors seenTickers : List String)
      (pages : Nat) (acc : List String), maxPages - pages ≤ k →
      (pageSeriesLoop fetch maxPages cursor seenCursors seenTickers pages acc).fetches
        ≤ maxPages - pages := by
  intro k
  induction k with
  | zero =>
    intro cursor seenCursors seenTickers pages acc hk
    have hcap : maxPages ≤ pages := by omega
    rw [pageSeriesLoop]
    simp [hcap]
  | succ n ih =>
    intro cursor seenCursors seenTickers pages acc hk
    rw [pageSeriesLoop]
    by_cases hcap : maxPages ≤ pages
    · simp [hcap]
    · simp only [if_neg hcap]
      cases hf : fetch cursor with
      | error e => simp; omega
      | ok page =>
        cases hc : page.cursor with
        | none => simp [hc]; omega
        | some next =>
          by_cases hseen : next ∈ seenCursors
          · simp [hc, hseen]; omega
          · simp only [hc, if_pos, if_neg hseen]
            have := ih (some next) (next :: seenCursors)
              (dedupTickers seenTickers acc page.items).1 (pages + 1)
              (dedupTickers seenTickers acc page.items).2 (by omega)
            omega

/-- C8: in both paginators the page cap is checked before each fetch: with
`max_pages = 1` and a source that always returns a non-null cursor, exactly
one fetch occurs and the run fails with the cap error; and for every
`max_pages`, at most `max_pages` fetches are ever issued. -/
theorem C8_page_cap :
    (∀ (α : Type) (fetch : Option String → Except String (Page α)),
      (∀ cur, ∃ xs c, fetch cur = .ok ⟨xs, some c⟩) →
      pageOpenMarketsForSeries fetch 1
        = ⟨.error "Exceeded max_pages while paging /markets; reduce scope or increase max_pages.", 1⟩)
    ∧ (∀ (α : Type) (fetch : Option String → Except String (Page α))
        (maxPages : Nat),
        (pageOpenMarketsForSeries fetch maxPages).fetches ≤ maxPages)
    ∧ (∀ (fetch : Option String → Except String (Page String)),
      (∀ cur, ∃ xs c, fetch cur = .ok ⟨xs, some c⟩) →
      pageSeriesTickersForCategory fetch 1
        = ⟨.error "Exceeded max_pages while paging /series; reduce scope with tags or increase max_pages.", 1⟩)
    ∧ (∀ (fetch : Option String → Except String (Page String)) (maxPages : Nat),
        (pageSeriesTickersForCategory fetch maxPages).fetches ≤ maxPages) := by
  refine ⟨?_, ?_, ?_, ?_⟩
  · intro α fetch h
    obtain ⟨xs, c, hf⟩ := h none
    rw [pageOpenMarketsForSeries, pageMarketsLoop]
    simp only [hf, Nat.le_zero, if_neg (by omega : ¬ (1 : Nat) ≤ 0)]
    rw [pageMarketsLoop]
    simp
  · intro α fetch maxPages
    simpa using pageMarketsLoop_fetches_le fetch maxPages maxPages none [] 0 []
      (by omega)
  · intro fetch h
    obtain ⟨xs, c, hf⟩ := h none
    rw [pageSeriesTickersForCategory, pageSeriesLoop]
    simp only [hf, Nat.le_zero, if_neg (by omega : ¬ (1 : Nat) ≤ 0)]
    rw [pageSeriesLoop]
    simp
  · intro fetch maxPages
    simpa using pageSeriesLoop_fetches_le fetch maxPages maxPages none [] [] 0 []
      (by omega)

/-- A page source that always returns items `[]` and cursor `"a"`. -/
def constCursorFetchNat : Option String → Except String (Page Nat) :=
  fun _ => .ok ⟨[], some "a"⟩

/-- The same constant-cursor source at the series item type. -/
def constCursorFetchStr : Option String → Except String (Page String) :=
  fun _ => .ok ⟨[], some "a"⟩

/-- Witness for C8: the constant-cursor sources with `max_pages = 1` fail
with the cap error after exactly one fetch, in both paginators. -/
theorem C8_page_cap_witness :
    pageOpenMarketsForSeries constCursorFetchNat 1
      = ⟨.error "Exceeded max_pages while paging /markets; reduce scope or increase max_pages.", 1⟩
    ∧ pageSeriesTickersForCategory constCursorFetchStr 1
      = ⟨.error "Exceeded max_pages while paging /series; reduce scope with tags or increase max_pages.", 1⟩ :=
  ⟨C8_page_cap.1 Nat constCursorFetchNat (fun _ => ⟨[], "a", rfl⟩),
   C8_page_cap.2.2.1 constCursorFetchStr (fun _ => ⟨[], "a", rfl⟩)⟩

/-- C9: in both paginators, a repeated cursor aborts the run before another
fetch: when the first page returns cursor `c` and the page at `c` returns
cursor `c` again, the run raises the cursor-repeated error after exactly two
fetches (for any page cap of at least 2). -/
theorem C9_cursor_cycle :
    (∀ (α : Type) (fetch : Option String → Except String (Page α))
      (maxPages : Nat) (xs ys : List α) (c : String), 2 ≤ maxPages →
      fetch none = .ok ⟨xs, some c⟩ → fetch (some c) = .ok ⟨ys, some c⟩ →
      pageOpenMarketsForSeries fetch maxPages
        = ⟨.error "Kalshi /markets cursor repeated; aborting pagination.", 2⟩)
    ∧ (∀ (fetch : Option String → Except String (Page String)) (maxPages : Nat)
      (xs ys : List String) (c : String), 2 ≤ maxPages →
      fetch none = .ok ⟨xs, some c⟩ → fetch (some c) = .ok ⟨ys, some c⟩ →
      pageSeriesTickersForCategory fetch maxPages
        = ⟨.error "Kalshi /series cursor repeated; aborting pagination.", 2⟩) := by
  constructor
  · intro α fetch maxPages xs ys c hmp h0 h1
    rw [pageOpenMarketsForSeries, pageMarketsLoop]
    simp only [h0, if_neg (by omega : ¬ maxPages ≤ 0)]
    rw [pageMarketsLoop]
    simp [h1, if_neg (by omega : ¬ maxPages ≤ 1)]
  · intro fetch maxPages xs ys c hmp h0 h1
    rw [pageSeriesTickersForCategory, pageSeriesLoop]
    simp only [h0, if_neg (by omega : ¬ maxPages ≤ 0)]
    rw [pageSeriesLoop]
    simp [h1, if_neg (by omega : ¬ maxPages ≤ 1)]

/-- Witness for C9: the constant-cursor sources with `max_pages = 5` abort
with the cursor-repeated error after exactly two fetches. -/
theorem C9_cursor_cycle_witness :
    pageOpenMarketsForSeries constCursorFetchNat 5
      = ⟨.error "Kalshi /markets cursor repeated; aborting pagination.", 2⟩
    ∧ pageSeriesTickersForCategory constCursorFetchStr 5
      = ⟨.error "Kalshi /series cursor repeated; aborting pagination.", 2⟩ :=
  ⟨C9_cursor_cycle.1 Nat constCursorFetchNat 5 [] [] "a" (by omega) rfl rfl,
   C9_cursor_cycle.2 constCursorFetchStr 5 [] [] "a" (by omega) rfl rfl⟩

/-! Retry lemmas and claims C4, C5. -/

/-- The number of `urlopen` calls a loop run issues is at most one more than
its fuel. -/
theorem getJsonLoop_calls_le (url : String) (outcome : Nat → HttpOutcome)
    (jitter : Nat → ℚ) :
    ∀ (fuel attempts calls : Nat) (sleeps : List ℚ),
      (getJsonLoop url outcome jitter fuel attempts calls sleeps).calls
        ≤ calls + fuel + 1 := by
  intro fuel
  induction fuel with
  | zero =>
    intro attempts calls sleeps
    rw [getJsonLoop]
    cases outcome calls with
    | success body => exact (by omega : calls + 1 <= calls + 0 + 1)
    | httpError code ra =>
      by_cases h : code ∈ retriableCodes ∧ attempts + 1 < maxAttempts
      · simp only [if_pos h]
        exact (by omega : calls + 1 <= calls + 0 + 1)
      · simp only [if_neg h]
        exact (by omega : calls + 1 <= calls + 0 + 1)
    | urlError reason =>
      by_cases h : attempts + 1 < maxAttempts
      · simp only [if_pos h]
        exact (by omega : calls + 1 <= calls + 0 + 1)
      · simp only [if_neg h]
        exact (by omega : calls + 1 <= calls + 0 + 1)
  | succ f ih =>
    intro attempts calls sleeps
    rw [getJsonLoop]
    cases outcome calls with
    | success body => exact (by omega : calls + 1 <= calls + (f + 1) + 1)
    | httpError code ra =>
      by_cases h : code ∈ retriableCodes ∧ attempts + 1 < maxAttempts
      · simp only [if_pos h]
        have := ih (attempts + 1) (calls + 1)
          (sleeps ++ [httpWait (attempts + 1) (jitter (attempts + 1)) ra])
        omega
      · simp only [if_neg h]
        exact (by omega : calls + 1 <= calls + (f + 1) + 1)
    | urlError reason =>
      by_cases h : attempts + 1 < maxAttempts
      · simp only [if_pos h]
        have := ih (attempts + 1) (calls + 1)
          (sleeps ++ [connWait (attempts + 1) (jitter (attempts + 1))])
        omega
      · simp only [if_neg h]
        exact (by omega : calls + 1 <= calls + (f + 1) + 1)

/-- The sleeps accumulator only grows: the final sleep list extends the one
the loop was entered with. -/
theorem getJsonLoop_sleeps_extend (url : String) (outcome : Nat → HttpOutcome)
    (jitter : Nat → ℚ) :
    ∀ (fuel attempts calls : Nat) (sleeps : List ℚ),
      ∃ t, (getJsonLoop url outcome jitter fuel attempts calls sleeps).sleeps
        = sleeps ++ t := by
  intro fuel
  induction fuel with
  | zero =>
    intro attempts calls sleeps
    rw [getJsonLoop]
    cases outcome calls with
    | success body => exact ⟨[], by simp⟩
    | httpError code ra =>
      by_cases h : code ∈ retriableCodes ∧ attempts + 1 < maxAttempts
      · simp only [if_pos h]
        exact ⟨[], by simp⟩
      · simp only [if_neg h]
        exact ⟨[], by simp⟩
    | urlError reason =>
      by_cases h : attempts + 1 < maxAttempts
      · simp only [if_pos h]
        exact ⟨[], by simp⟩
      · simp only [if_neg h]
        exact ⟨[], by simp⟩
  | succ f ih =>
    intro attempts calls sleeps
    rw [getJsonLoop]
    cases outcome calls with
    | success body => exact ⟨[], by simp⟩
    | httpError code ra =>
      by_cases h : code ∈ retriableCodes ∧ attempts + 1 < maxAttempts
      · simp only [if_pos h]
        obtain ⟨t, ht⟩ := ih (attempts + 1) (calls + 1)
          (sleeps ++ [httpWait (attempts + 1) (jitter (attempts + 1)) ra])
        exact ⟨httpWait (attempts + 1) (jitter (attempts + 1)) ra :: t, by
          rw [ht]; simp⟩
      · simp only [if_neg h]
        exact ⟨[], by simp⟩
    | urlError reason =>
      by_cases h : attempts + 1 < maxAttempts
      · simp only [if_pos h]
        obtain ⟨t, ht⟩ := ih (attempts + 1) (calls + 1)
          (sleeps ++ [connWait (attempts + 1) (jitter (attempts + 1))])
        exact ⟨connWait (attempts + 1) (jitter (attempts + 1)) :: t, by
          rw [ht]; simp⟩
      · simp only [if_neg h]
        exact ⟨[], by simp⟩

/-- C4: the retry loop makes at most 4 `urlopen` attempts; retriable statuses
on the first two attempts followed by a success make the call succeed on the
third attempt; a source failing with a retriable status on every attempt
raises the `KalshiClientError` HTTP message after exactly 4 attempts; and a
non-retriable status fails immediately after one attempt with no sleep. -/
theorem C4_retry_attempts :
    (∀ (url : String) (outcome : Nat → HttpOutcome) (jitter : Nat → ℚ)
      (c0 c1 : Nat) (r0 r1 : Option ℚ) (body : String),
      outcome 0 = .httpError c0 r0 → c0 ∈ retriableCodes →
      outcome 1 = .httpError c1 r1 → c1 ∈ retriableCodes →
      outcome 2 = .success body →
      (getJson url outcome jitter).result = .ok body
        ∧ (getJson url outcome jitter).calls = 3)
    ∧ (∀ (url : String) (outcome : Nat → HttpOutcome) (jitter : Nat → ℚ)
        (c : Nat → Nat) (r : Nat → Option ℚ),
        (∀ n, outcome n = .httpError (c n) (r n)) →
        (∀ n, c n ∈ retriableCodes) →
        (getJson url outcome jitter).result
            = .error ("Kalshi API HTTP " ++ toString (c 3) ++ " for " ++ url)
          ∧ (getJson url outcome jitter).calls = 4)
    ∧ (∀ (url : String) (outcome : Nat → HttpOutcome) (jitter : Nat → ℚ)
        (code : Nat) (ra : Option ℚ),
        outcome 0 = .httpError code ra → code ∉ retriableCodes →
        getJson url outcome jitter
          = ⟨.error ("Kalshi API HTTP " ++ toString code ++ " for " ++ url), 1, []⟩)
    ∧ (∀ (url : String) (outcome : Nat → HttpOutcome) (jitter : Nat → ℚ),
        (getJson url outcome jitter).calls ≤ 4) := by
  refine ⟨?_, ?_, ?_, ?_⟩
  · intro url outcome jitter c0 c1 r0 r1 body h0 hc0 h1 hc1 h2
    rw [getJson, maxAttempts]
    rw [getJsonLoop]
    simp only [h0, if_pos (⟨hc0, by norm_num [maxAttempts]⟩ :
      c0 ∈ retriableCodes ∧ 0 + 1 < maxAttempts)]
    rw [getJsonLoop]
    simp only [h1, if_pos (⟨hc1, by norm_num [maxAttempts]⟩ :
      c1 ∈ retriableCodes ∧ 0 + 1 + 1 < maxAttempts)]
    rw [getJsonLoop]
    simp [h2]
  · intro url outcome jitter c r hout hc
    rw [getJson, maxAttempts]
    rw [getJsonLoop]
    simp only [hout 0, if_pos (⟨hc 0, by norm_num [maxAttempts]⟩ :
      c 0 ∈ retriableCodes ∧ 0 + 1 < maxAttempts)]
    rw [getJsonLoop]
    simp only [hout 1, if_pos (⟨hc 1, by norm_num [maxAttempts]⟩ :
      c 1 ∈ retriableCodes ∧ 0 + 1 + 1 < maxAttempts)]
    rw [getJsonLoop]
    simp only [hout 2, if_pos (⟨hc 2, by norm_num [maxAttempts]⟩ :
      c 2 ∈ retriableCodes ∧ 0 + 1 + 1 + 1 < maxAttempts)]
    rw [getJsonLoop]
    simp only [hout 3,
      if_neg (by norm_num [maxAttempts] :
        ¬ (c 3 ∈ retriableCodes ∧ 0 + 1 + 1 + 1 + 1 < maxAttempts))]
    simp
  · intro url outcome jitter code ra h0 hc
    rw [getJson, maxAttempts]
    rw [getJsonLoop]
    simp only [h0, if_neg (by simp [hc] :
      ¬ (code ∈ retriableCodes ∧ 0 + 1 < maxAttempts))]
  · intro url outcome jitter
    have := getJsonLoop_calls_le url outcome jitter (maxAttempts - 1) 0 0 []
    simpa [maxAttempts] using this

/-- A three-outcome script: 503 twice (no Retry-After), then success. -/
def retryOutcome : Nat → HttpOutcome :=
  fun n => if n < 2 then .httpError 503 none else .success "body"

/-- A script failing with 503 on every attempt. -/
def always503 : Nat → HttpOutcome := fun _ => .httpError 503 none

/-- A script with one terminal 404. -/
def notFoundOutcome : Nat → HttpOutcome := fun _ => .httpError 404 none

/-- Jitter oracle fixed at zero. -/
def zeroJitter : Nat → ℚ := fun _ => 0

/-- Witness for C4: the concrete scripts exercise all three scenarios. -/
theorem C4_retry_attempts_witness :
    ((getJson "u" retryOutcome zeroJitter).result = .ok "body"
      ∧ (getJson "u" retryOutcome zeroJitter).calls = 3)
    ∧ ((getJson "u" always503 zeroJitter).result
          = .error ("Kalshi API HTTP " ++ toString 503 ++ " for " ++ "u")
        ∧ (getJson "u" always503 zeroJitter).calls = 4)
    ∧ getJson "u" notFoundOutcome zeroJitter
        = ⟨.error ("Kalshi API HTTP " ++ toString 404 ++ " for " ++ "u"), 1, []⟩ := by
  refine ⟨?_, ?_, ?_⟩
  · exact C4_retry_attempts.1 "u" retryOutcome zeroJitter 503 503 none none "body"
      rfl (by decide) rfl (by decide) rfl
  · have h503 : (503 : Nat) ∈ retriableCodes := by decide
    exact C4_retry_attempts.2.1 "u" always503 zeroJitter (fun _ => 503)
      (fun _ => none) (fun _ => rfl) (fun _ => h503)
  · exact C4_retry_attempts.2.2.1 "u" notFoundOutcome zeroJitter 404 none rfl
      (by decide)

/-- A script with one 503 carrying `Retry-After: 10`, then success. -/
def retryAfterOutcome : Nat → HttpOutcome :=
  fun n => if n = 0 then .httpError 503 (some 10) else .success "body"

/-- Counterexample to C5: with zero jitter and `Retry-After: 10` on the first
failure, the recorded wait is 5 seconds (the cap), not
`max(computed_backoff, retry_after) = 10`. -/
theorem C5_counterexample :
    (getJson "u" retryAfterOutcome zeroJitter).sleeps = [5]
    ∧ ¬ ((5 : ℚ) = max (computedBackoff 1 (zeroJitter 1)) 10) := by
  constructor
  · have h1 : (getJson "u" retryAfterOutcome zeroJitter).sleeps
        = [httpWait 1 (zeroJitter 1) (some 10)] := rfl
    have h2 : httpWait 1 (zeroJitter 1) (some 10) = 5 := by
      show min (max (computedBackoff 1 (zeroJitter 1)) 10) 5 = 5
      rw [max_eq_right (by norm_num [computedBackoff, zeroJitter]),
        min_eq_right (by norm_num)]
    rw [h1, h2]
  · rw [max_eq_right (by norm_num [computedBackoff, zeroJitter] :
      computedBackoff 1 (zeroJitter 1) ≤ 10)]
    norm_num

/-- C5 (amended): for a retried HTTP-status failure with a numeric
`Retry-After` header the wait is `min(max(computed_backoff, retry_after), 5)`
— the `Retry-After` value dominates the computed backoff only up to the
5-second cap; in particular, the first sleep of a run whose first attempt
fails retriably with `Retry-After: r` is exactly that value. -/
theorem C5_wait_formula :
    (∀ (attempts : Nat) (j r : ℚ),
      httpWait attempts j (some r) = min (max (computedBackoff attempts j) r) 5)
    ∧ (∀ (url : String) (outcome : Nat → HttpOutcome) (jitter : Nat → ℚ)
        (code : Nat) (r : ℚ),
        outcome 0 = .httpError code (some r) → code ∈ retriableCodes →
        ∃ rest, (getJson url outcome jitter).sleeps
          = min (max (computedBackoff 1 (jitter 1)) r) 5 :: rest) := by
  constructor
  · intro attempts j r; rfl
  · intro url outcome jitter code r h0 hc
    rw [getJson, maxAttempts, getJsonLoop]
    simp only [h0, if_pos (⟨hc, by norm_num [maxAttempts]⟩ :
      code ∈ retriableCodes ∧ 0 + 1 < maxAttempts)]
    obtain ⟨t, ht⟩ := getJsonLoop_sleeps_extend url outcome jitter 2 1 1
      [httpWait 1 (jitter 1) (some r)]
    refine ⟨t, ?_⟩
    show (getJsonLoop url outcome jitter 2 1 1
      [httpWait 1 (jitter 1) (some r)]).sleeps
        = min (max (computedBackoff 1 (jitter 1)) r) 5 :: t
    rw [ht]
    rfl

/-- Witness for C5's amended theorem: the `Retry-After: 10` script records a
first sleep of `min(max(1/4, 10), 5) = 5`. -/
theorem C5_wait_formula_witness :
    httpWait 1 (zeroJitter 1) (some 10)
        = min (max (computedBackoff 1 (zeroJitter 1)) 10) 5
    ∧ ∃ rest, (getJson "u" retryAfterOutcome zeroJitter).sleeps
        = min (max (computedBackoff 1 (zeroJitter 1)) 10) 5 :: rest :=
  ⟨C5_wait_formula.1 1 (zeroJitter 1) 10,
   C5_wait_formula.2 "u" retryAfterOutcome zeroJitter 503 10 rfl (by decide)⟩

/-! Signing claims C6, C7. -/

/-- Everything before the first `?` is unaffected by appending a query
string after that `?`. -/
theorem beforeQuery_append (q : List Char) :
    ∀ p : List Char, '?' ∉ p → beforeQuery (p ++ '?' :: q) = beforeQuery p := by
  intro p
  induction p with
  | nil => intro _; simp [beforeQuery]
  | cons c cs ih =>
    intro h
    have hc : ¬ c = '?' := fun hemm => h (by simp [hemm])
    have hcs : '?' ∉ cs := fun hemm => h (by simp [hemm])
    simp only [List.cons_append, beforeQuery, List.append_eq]
    rw [if_neg hc, if_neg hc, ih hcs]

/-- C6: the signing input of `_require_auth_headers` is the timestamp, the
upper-cased method, and the signing path concatenated; the signing path
ignores any query string of the request path; and over the base URL
`https://host/trade-api/v2` (with or without trailing slash) signing
`GET /portfolio/balance` — with the method given as `GET` or `get` — yields
`{ts}GET/trade-api/v2/portfolio/balance`, while a base URL without a path
component prefixes nothing. -/
theorem C6_signing_input :
    (∀ ts method baseUrl path : List Char,
      signingInput ts method baseUrl path
        = ts ++ method.map Char.toUpper ++ pathForSigning baseUrl path)
    ∧ (∀ (baseUrl p q : List Char), '?' ∉ p →
        pathForSigning baseUrl (p ++ '?' :: q) = pathForSigning baseUrl p)
    ∧ (∀ ts : List Char,
        signingInput ts "GET".toList "https://host/trade-api/v2".toList
            "/portfolio/balance".toList
          = ts ++ "GET/trade-api/v2/portfolio/balance".toList)
    ∧ (∀ ts : List Char,
        signingInput ts "get".toList "https://host/trade-api/v2/".toList
            "/portfolio/balance".toList
          = ts ++ "GET/trade-api/v2/portfolio/balance".toList)
    ∧ (∀ ts : List Char,
        signingInput ts "GET".toList "https://host".toList
            "/portfolio/balance".toList
          = ts ++ "GET/portfolio/balance".toList) := by
  refine ⟨fun _ _ _ _ => rfl, ?_, ?_, ?_, ?_⟩
  · intro baseUrl p q hp
    have key : beforeQuery (if (p ++ '?' :: q).head? = some '/' then p ++ '?' :: q
        else '/' :: (p ++ '?' :: q))
        = beforeQuery (if p.head? = some '/' then p else '/' :: p) := by
      cases p with
      | nil => simp [beforeQuery]
      | cons c cs =>
        have hcs : '?' ∉ cs := fun hemm => hp (by simp [hemm])
        by_cases hc : c = '/'
        · subst hc
          simp only [List.cons_append, List.head?]
          rw [if_pos trivial, if_pos trivial]
          exact beforeQuery_append q ('/' :: cs) hp
        · simp only [List.cons_append, List.head?]
          have hq2 : '?' ∉ '/' :: c :: cs := by
            intro hmem
            rcases List.mem_cons.mp hmem with h1 | h2
            · exact absurd h1 (by decide)
            · exact hp h2
          rw [if_neg (show ¬ (some c = some '/') from by simpa using hc),
            if_neg (show ¬ (some c = some '/') from by simpa using hc)]
          exact beforeQuery_append q ('/' :: c :: cs) hq2
    simp only [pathForSigning]
    rw [key]
  · intro ts
    show ts ++ List.map Char.toUpper "GET".toList
        ++ pathForSigning "https://host/trade-api/v2".toList
            "/portfolio/balance".toList
      = ts ++ "GET/trade-api/v2/portfolio/balance".toList
    rw [List.append_assoc]
    congr 1
  · intro ts
    show ts ++ List.map Char.toUpper "get".toList
        ++ pathForSigning "https://host/trade-api/v2/".toList
            "/portfolio/balance".toList
      = ts ++ "GET/trade-api/v2/portfolio/balance".toList
    rw [List.append_assoc]
    congr 1
  · intro ts
    show ts ++ List.map Char.toUpper "GET".toList
        ++ pathForSigning "https://host".toList "/portfolio/balance".toList
      = ts ++ "GET/portfolio/balance".toList
    rw [List.append_assoc]
    congr 1

/-- Witness for C6 at concrete inputs: the documented signing example with a
concrete timestamp, and query-string stripping on a concrete path. -/
theorem C6_signing_input_witness :
    signingInput "1700000000000".toList "GET".toList
        "https://host/trade-api/v2".toList "/portfolio/balance".toList
      = "1700000000000".toList ++ "GET/trade-api/v2/portfolio/balance".toList
    ∧ pathForSigning "https://host/trade-api/v2".toList
        ("/markets".toList ++ '?' :: "limit=10".toList)
      = pathForSigning "https://host/trade-api/v2".toList "/markets".toList :=
  ⟨C6_signing_input.2.2.1 "1700000000000".toList,
   C6_signing_input.2.1 "https://host/trade-api/v2".toList "/markets".toList
    "limit=10".toList (by decide)⟩

/-- Counterexample to C7: `_sign_message` does not use the maximum salt
length; its configuration differs from the claimed one (PSS with
`MAX_LENGTH`). -/
theorem C7_counterexample :
    kalshiSignConfig
      ≠ { padding := .pss .sha256 .maxLength
          digest := .sha256
          base64Encoded := true } := by
  decide

/-- C7 (amended): the request signature configuration is RSA-PSS padding
with MGF1 over SHA-256 and the salt length equal to the digest length
(`padding.PSS.DIGEST_LENGTH`), a SHA-256 digest, and base64 output. -/
theorem C7_sign_scheme :
    kalshiSignConfig.padding = PaddingScheme.pss HashAlg.sha256 SaltLengthSpec.digestLength
    ∧ kalshiSignConfig.digest = HashAlg.sha256
    ∧ kalshiSignConfig.base64Encoded = true := by
  exact ⟨rfl, rfl, rfl⟩

end KalshiMCP
